import Mathlib

/-!
Verification of the Gmail-Agent-V2 backend against its specification.

The development shallowly embeds the parts of the code the claims are
about:

* the Google OAuth verify callback in `src/server.js` (the "Identity
  Upsert"): `verifyCallback`, with the Supabase client's results modelled
  as value-level `{ data, error }` pairs supplied by an `Oracle` (the
  supabase-js client returns errors as values and does not throw; the
  server code itself checks `fetchError` / `insertError` fields, matching
  that model);
* the honest store semantics `runUpsert` that executes the issued
  operations against a list of user rows;
* the `isAdmin` middleware and the OAuth callback route's redirect logic;
* the `/admin` statistics computation;
* the DDL batches of the schema-provisioner scripts
  (`setup-supabase-tables.js`, `create-tables.js`) with a small schema
  semantics.

Timestamps are modelled as `Int` milliseconds; the ISO-string encoding of
instants used on the wire is abstracted to the instant itself.
-/

/-- A JavaScript value as it appears in a Supabase request payload.
`undef` models a property whose value is `undefined` (dropped by JSON
serialisation); instants are abstracted to `Int` milliseconds. -/
inductive JValue where
  | str (s : String)
  | time (t : Int)
  | bool (b : Bool)
  | undef
deriving DecidableEq, Repr

/-- A request payload: the ordered field/value pairs of the object literal
the code passes to `.insert` / `.update`. -/
abbrev Payload := List (String × JValue)

/-- A row of the `users` table (schema from the setup scripts:
`id, google_id, email, name, picture, created_at, last_login, is_active`). -/
structure StoreUser where
  id : Nat
  google_id : String
  email : String
  name : String
  picture : Option String
  created_at : Int
  last_login : Option Int
  is_active : Bool
deriving DecidableEq, Repr

/-- The transient value handed to `done(null, user)`: the store row plus
the `isNewUser` flag the callback attaches in memory
(`user.isNewUser = isNewUser`). -/
structure SessionUser where
  record : StoreUser
  isNewUser : Bool
deriving DecidableEq, Repr

/-- A PostgREST error object; only the `code` field is inspected by the
server (`fetchError.code !== 'PGRST116'`). -/
structure StoreError where
  code : String
deriving DecidableEq, Repr

/-- What the verify callback passes to `done`: either an authenticated
principal (`done(null, user)`) or a failure (`done(error, null)` — the
caught exception; `typeError` stands for a thrown `TypeError` such as
reading `profile.emails[0].value` when no email entry exists). -/
inductive JsError where
  | typeError
  | store (e : StoreError)
deriving DecidableEq, Repr

inductive DoneResult where
  | success (u : SessionUser)
  | failure (e : JsError)
deriving DecidableEq, Repr

/-- One entry of `profile.emails`. -/
structure EmailEntry where
  value : String
deriving DecidableEq, Repr

/-- One entry of `profile.photos`. -/
structure PhotoEntry where
  value : String
deriving DecidableEq, Repr

/-- The OAuth profile handed to the verify callback.  An absent `emails`
or `photos` array is modelled by the empty list (both make the JS index
access behave the same way). -/
structure Profile where
  id : String
  emails : List EmailEntry
  displayName : String
  photos : List PhotoEntry
deriving DecidableEq, Repr

/-- A store operation issued by the callback, with the exact payload the
code builds. -/
inductive Op where
  | fetch (googleId : String)
  | insert (p : Payload)
  | update (p : Payload) (id : Nat)
deriving DecidableEq, Repr

/-- The `{ data, error }` result value of one Supabase query. -/
structure StoreResponse where
  data : Option StoreUser
  error : Option StoreError

/-- The store's behaviour during one callback run: the result of the
initial `select ... single()`, the result of an insert as a function of
the inserted payload, and a possible error of the `last_login` update.
The server never binds the update's result object
(`await supabase.from('users').update(...)` is not destructured), so no
code path reads `updateError`; the field records that such an error can
occur and is discarded. -/
structure Oracle where
  fetchRes : StoreResponse
  insertRes : Payload → StoreResponse
  updateError : Option StoreError
  now : Int

/-- The outcome of one verify-callback run: the `done` result together
with the trace of store operations issued. -/
structure CallbackOut where
  result : DoneResult
  ops : List Op
deriving Repr

/-- `profile.photos[0]?.value`: the optional chaining yields `undefined`
when there is no photo entry. -/
def pictureValOf (profile : Profile) : JValue :=
  match profile.photos.head? with
  | some ph => JValue.str ph.value
  | none => JValue.undef

/-- The object literal the code inserts:
`{ google_id: googleId, email, name, picture }`. -/
def insertPayload (googleId email name : String) (pictureVal : JValue) : Payload :=
  [("google_id", JValue.str googleId), ("email", JValue.str email),
   ("name", JValue.str name), ("picture", pictureVal)]

/-- Continuation of the verify callback after the existence check: the
`if (!user) { insert ... } else { update last_login }` part of
`src/server.js`.  In the insert branch, `if (insertError) throw insertError`;
a `null` row with no error would make `user.isNewUser = isNewUser` throw
a `TypeError`, which the surrounding `catch` turns into `done(error, null)`. -/
def afterFetch (profile : Profile) (o : Oracle) (e0 : EmailEntry) (pictureVal : JValue) :
    Option StoreUser → CallbackOut
  | none =>
    let pl := insertPayload profile.id e0.value profile.displayName pictureVal
    let ir := o.insertRes pl
    match ir.error with
    | some ie =>
      { result := DoneResult.failure (JsError.store ie)
        ops := [Op.fetch profile.id, Op.insert pl] }
    | none =>
      match ir.data with
      | none =>
        { result := DoneResult.failure JsError.typeError
          ops := [Op.fetch profile.id, Op.insert pl] }
      | some nu =>
        { result := DoneResult.success { record := nu, isNewUser := true }
          ops := [Op.fetch profile.id, Op.insert pl] }
  | some u =>
    { result := DoneResult.success { record := u, isNewUser := false }
      ops := [Op.fetch profile.id,
              Op.update [("last_login", JValue.time o.now)] u.id] }

/-- The GoogleStrategy verify callback of `src/server.js`.  Reading
`profile.emails[0].value` with no email entry throws a `TypeError`
caught by the `try`/`catch`; then the existence query runs, a non-PGRST116
query error is thrown (`if (fetchError && fetchError.code !== 'PGRST116')
throw fetchError`), and the run continues with `afterFetch` on the
fetched row. -/
def verifyCallback (profile : Profile) (o : Oracle) : CallbackOut :=
  match profile.emails.head? with
  | none => { result := DoneResult.failure JsError.typeError, ops := [] }
  | some e0 =>
    match o.fetchRes.error, o.fetchRes.data with
    | some fe, d =>
      if fe.code = "PGRST116" then afterFetch profile o e0 (pictureValOf profile) d
      else { result := DoneResult.failure (JsError.store fe), ops := [Op.fetch profile.id] }
    | none, d => afterFetch profile o e0 (pictureValOf profile) d

/-- Read a string-valued field out of a payload. -/
def lookupStr (p : Payload) (k : String) : Option String :=
  match p.lookup k with
  | some (JValue.str v) => some v
  | _ => none

/-- Read an instant-valued field out of a payload. -/
def lookupTime (p : Payload) (k : String) : Option Int :=
  match p.lookup k with
  | some (JValue.time t) => some t
  | _ => none

/-- The row the store materialises for an insert payload: payload columns
plus the store-assigned surrogate id and creation timestamp, and the
schema defaults `last_login NULL`, `is_active TRUE`. -/
def mkNewUser (p : Payload) (freshId : Nat) (createdAt : Int) : StoreUser :=
  { id := freshId
    google_id := (lookupStr p "google_id").getD ""
    email := (lookupStr p "email").getD ""
    name := (lookupStr p "name").getD ""
    picture := lookupStr p "picture"
    created_at := createdAt
    last_login := lookupTime p "last_login"
    is_active := true }

/-- Apply an update payload to a row: each column present in the payload
is overwritten, every other column keeps its value. -/
def applyUpdatePayload (p : Payload) (u : StoreUser) : StoreUser :=
  { u with
    google_id := (lookupStr p "google_id").getD u.google_id
    email := (lookupStr p "email").getD u.email
    name := (lookupStr p "name").getD u.name
    picture := match p.lookup "picture" with
      | some (JValue.str v) => some v
      | _ => u.picture
    created_at := (lookupTime p "created_at").getD u.created_at
    last_login := match p.lookup "last_login" with
      | some (JValue.time t) => some t
      | _ => u.last_login
    is_active := match p.lookup "is_active" with
      | some (JValue.bool b) => b
      | _ => u.is_active }

/-- Execute one issued operation against the table contents. -/
def applyOp (freshId : Nat) (createdAt : Int) (store : List StoreUser) : Op → List StoreUser
  | Op.fetch _ => store
  | Op.insert p => store ++ [mkNewUser p freshId createdAt]
  | Op.update p i => store.map (fun u => if u.id == i then applyUpdatePayload p u else u)

/-- The honest result of `select('*').eq('google_id', gid).single()`:
the matching row, or the PostgREST "no (single) row" error `PGRST116`
with `data: null`. -/
def honestFetch (store : List StoreUser) (gid : String) : StoreResponse :=
  match store.find? (fun u => u.google_id == gid) with
  | some u => { data := some u, error := none }
  | none => { data := none, error := some { code := "PGRST116" } }

/-- The outcome of one honest end-to-end upsert run. -/
structure RunOut where
  result : DoneResult
  ops : List Op
  finalStore : List StoreUser
deriving Repr

/-- One verify-callback run against a store that answers honestly: the
fetch reflects the table contents, the insert succeeds and returns the
materialised row, the update succeeds. `now` is the login instant,
`createdAt`/`freshId` the store-assigned creation metadata. -/
def runUpsert (store : List StoreUser) (profile : Profile) (now createdAt : Int)
    (freshId : Nat) : RunOut :=
  let o : Oracle :=
    { fetchRes := honestFetch store profile.id
      insertRes := fun p => { data := some (mkNewUser p freshId createdAt), error := none }
      updateError := none
      now := now }
  let out := verifyCallback profile o
  { result := out.result
    ops := out.ops
    finalStore := out.ops.foldl (applyOp freshId createdAt) store }

/-- The request context the gate middlewares look at: whether
`req.isAuthenticated()` holds, and `req.user.email` when it does. -/
structure ReqCtx where
  authenticated : Bool
  userEmail : String
deriving DecidableEq, Repr

/-- What a middleware does with a request. -/
inductive MwResult where
  | next
  | status (code : Nat) (body : String)
  | redirect (loc : String)
deriving DecidableEq, Repr

/-- The `isAdmin` middleware of `src/server.js`:
`if (req.isAuthenticated() && req.user.email === ADMIN_EMAIL) return next();
res.status(403).send('Access denied. Admin only.');`. -/
def isAdmin (adminEmail : String) (req : ReqCtx) : MwResult :=
  if req.authenticated && req.userEmail == adminEmail then MwResult.next
  else MwResult.status 403 "Access denied. Admin only."

/-- The `/auth/google/callback` route: `passport.authenticate` with
`failureRedirect: '/'` redirects failed authentications to `/`; on
success the handler redirects to `/dashboard?welcome=true` when
`req.user.isNewUser` is set and to `/dashboard` otherwise. -/
def authCallbackRedirect (r : DoneResult) : String :=
  match r with
  | DoneResult.failure _ => "/"
  | DoneResult.success u =>
    if u.isNewUser then "/dashboard?welcome=true" else "/dashboard"

/-- The aggregate numbers the `/admin` route computes. -/
structure Stats where
  totalUsers : Nat
  activeUsers : Nat
  newToday : Nat
  newThisWeek : Nat
deriving DecidableEq, Repr

def millisPerDay : Int := 86400000

/-- The stats block of the `/admin` handler.  `today` is the instant of
local midnight of the current day (`new Date(y, m, d)`); `weekAgo` is
seven days earlier (`setDate(getDate() - 7)`, modelled as a fixed
seven-day interval).  Each row counts via `new Date(u.created_at)`
compared against these bounds. -/
def computeStats (users : List StoreUser) (today : Int) : Stats :=
  let weekAgo := today - 7 * millisPerDay
  { totalUsers := users.length
    activeUsers := (users.filter (fun u => u.is_active)).length
    newToday := (users.filter (fun u => decide (today ≤ u.created_at))).length
    newThisWeek := (users.filter (fun u => decide (weekAgo ≤ u.created_at))).length }

/-- One DDL statement as issued by the schema-provisioner scripts. -/
inductive DDL where
  | dropTableIfExists (t : String)
  | createTable (t : String) (cols : List String)
  | createTableIfNotExists (t : String) (cols : List String)
  | createIndex (i : String) (t : String)
  | addColumnIfNotExists (t : String) (c : String)
deriving DecidableEq, Repr

/-- Whether a statement carries an `IF NOT EXISTS` / `IF EXISTS` guard. -/
def DDL.guarded : DDL → Bool
  | DDL.dropTableIfExists _ => true
  | DDL.createTableIfNotExists _ _ => true
  | DDL.addColumnIfNotExists _ _ => true
  | DDL.createTable _ _ => false
  | DDL.createIndex _ _ => false

structure Table where
  name : String
  cols : List String
deriving DecidableEq, Repr

structure DbIndex where
  name : String
  table : String
deriving DecidableEq, Repr

/-- The catalog state the DDL operates on. -/
structure Schema where
  tables : List Table
  indexes : List DbIndex
deriving DecidableEq, Repr

def hasTable (s : Schema) (t : String) : Bool :=
  s.tables.any (fun tb => tb.name == t)

def hasIndex (s : Schema) (i : String) : Bool :=
  s.indexes.any (fun ix => ix.name == i)

/-- `DROP TABLE ... CASCADE` removes the table and every index on it. -/
def dropTable (s : Schema) (t : String) : Schema :=
  { tables := s.tables.filter (fun tb => tb.name != t)
    indexes := s.indexes.filter (fun ix => ix.table != t) }

/-- Postgres semantics of one statement: unguarded `CREATE` errors on a
name collision, guarded variants are no-ops on one. -/
def execDDL (s : Schema) : DDL → Except String Schema
  | DDL.dropTableIfExists t => Except.ok (dropTable s t)
  | DDL.createTable t cols =>
    if hasTable s t then Except.error ("relation already exists: " ++ t)
    else Except.ok { s with tables := s.tables ++ [{ name := t, cols := cols }] }
  | DDL.createTableIfNotExists t cols =>
    if hasTable s t then Except.ok s
    else Except.ok { s with tables := s.tables ++ [{ name := t, cols := cols }] }
  | DDL.createIndex i t =>
    if hasIndex s i then Except.error ("relation already exists: " ++ i)
    else if hasTable s t then Except.ok { s with indexes := s.indexes ++ [{ name := i, table := t }] }
    else Except.error ("relation does not exist: " ++ t)
  | DDL.addColumnIfNotExists t c =>
    if hasTable s t then
      Except.ok { s with tables := s.tables.map (fun tb =>
        if tb.name == t then
          (if tb.cols.contains c then tb else { tb with cols := tb.cols ++ [c] })
        else tb) }
    else Except.error ("relation does not exist: " ++ t)

/-- Run a statement batch, stopping at the first error. -/
def execScript (s : Schema) : List DDL → Except String Schema
  | [] => Except.ok s
  | d :: ds =>
    match execDDL s d with
    | Except.ok s1 => execScript s1 ds
    | Except.error e => Except.error e

def usersCols : List String :=
  ["id", "google_id", "email", "name", "picture", "created_at", "last_login", "is_active"]

def sessionsCols : List String :=
  ["id", "user_id", "token", "expires_at", "created_at"]

/-- The SQL batch of `setup-supabase-tables.js` (`setupTables`): guarded
drops followed by unguarded creates of the two tables and three indexes. -/
def setupTablesDDL : List DDL :=
  [DDL.dropTableIfExists "sessions",
   DDL.dropTableIfExists "users",
   DDL.createTable "users" usersCols,
   DDL.createTable "sessions" sessionsCols,
   DDL.createIndex "idx_users_google_id" "users",
   DDL.createIndex "idx_users_email" "users",
   DDL.createIndex "idx_sessions_user_id" "sessions"]

/-- The SQL batch of `create-tables.js` (`createTables`): both creates
carry `IF NOT EXISTS`. -/
def createTablesDDL : List DDL :=
  [DDL.createTableIfNotExists "users" usersCols,
   DDL.createTableIfNotExists "sessions" sessionsCols]

/-- Concrete profile used by several witnesses: subject id g-1, email a@x.com, no photo. -/
def sampleNewProfile : Profile :=
  { id := "g-1", emails := [{ value := "a@x.com" }], displayName := "Alice", photos := [] }

/-- Concrete pre-existing store row for the g-1 subject id. -/
def sampleExistingUser : StoreUser :=
  { id := 7, google_id := "g-1", email := "old@x.com", name := "Old",
    picture := some "p", created_at := 100, last_login := some 200, is_active := true }

/-- An oracle whose initial query fails with a non-PGRST116 store error. -/
def fetchFailOracle : Oracle :=
  { fetchRes := { data := none, error := some { code := "500" } }
    insertRes := fun _ => { data := none, error := none }
    updateError := none
    now := 0 }

/-- An oracle for a first login: the query finds no row and the insert succeeds. -/
def insertingOracle : Oracle :=
  { fetchRes := { data := none, error := none }
    insertRes := fun p => { data := some (mkNewUser p 1 5), error := none }
    updateError := none
    now := 0 }

/-- A profile whose emails array is empty. -/
def emptyEmailProfile : Profile :=
  { id := "g-9", emails := [], displayName := "N", photos := [] }

/-- The payload carried by a store operation (empty for a fetch). -/
def payloadOfOp : Op → Payload
  | Op.fetch _ => []
  | Op.insert p => p
  | Op.update p _ => p

def sampleMidnight : Int := 1000 * millisPerDay

def sampleNow : Int := sampleMidnight + 7200000

/-- A user row with the given creation instant, used by the stats witness. -/
def statUser (t : Int) : StoreUser :=
  { id := 1, google_id := "g", email := "e", name := "n", picture := none,
    created_at := t, last_login := none, is_active := true }

def usersTable : Table := { name := "users", cols := usersCols }

def sessionsTable : Table := { name := "sessions", cols := sessionsCols }

def idxUsersGoogleId : DbIndex := { name := "idx_users_google_id", table := "users" }

def idxUsersEmail : DbIndex := { name := "idx_users_email", table := "users" }

def idxSessionsUserId : DbIndex := { name := "idx_sessions_user_id", table := "sessions" }

/-- The tables remaining after the two guarded drops of the setup script. -/
def droppedTables (s : Schema) : List Table :=
  (s.tables.filter (fun tb => tb.name != "sessions")).filter (fun tb => tb.name != "users")

/-- The indexes remaining after the two guarded drops of the setup script. -/
def droppedIndexes (s : Schema) : List DbIndex :=
  (s.indexes.filter (fun ix => ix.table != "sessions")).filter (fun ix => ix.table != "users")

/-- The schema produced by a successful run of the setup script. -/
def setupResult (s : Schema) : Schema :=
  { tables := droppedTables s ++ [usersTable, sessionsTable]
    indexes := droppedIndexes s ++ [idxUsersGoogleId, idxUsersEmail, idxSessionsUserId] }

lemma applyUpdate_last_login (t : Int) (v : StoreUser) :
    applyUpdatePayload [("last_login", JValue.time t)] v = { v with last_login := some t } := rfl

lemma runUpsert_new (store : List StoreUser) (profile : Profile) (now createdAt : Int)
    (freshId : Nat) (e0 : EmailEntry)
    (he : profile.emails.head? = some e0)
    (hn : store.find? (fun u => u.google_id == profile.id) = none) :
    runUpsert store profile now createdAt freshId =
      { result := DoneResult.success
          { record := mkNewUser (insertPayload profile.id e0.value profile.displayName
              (pictureValOf profile)) freshId createdAt
            isNewUser := true }
        ops := [Op.fetch profile.id,
                Op.insert (insertPayload profile.id e0.value profile.displayName
                  (pictureValOf profile))]
        finalStore := store ++ [mkNewUser (insertPayload profile.id e0.value
          profile.displayName (pictureValOf profile)) freshId createdAt] } := by
  have hfetch : honestFetch store profile.id =
      { data := none, error := some { code := "PGRST116" } } := by
    unfold honestFetch; rw [hn]
  simp only [runUpsert, hfetch, verifyCallback, he, afterFetch]
  simp [applyOp, List.foldl]

lemma runUpsert_existing (store : List StoreUser) (profile : Profile) (now createdAt : Int)
    (freshId : Nat) (e0 : EmailEntry) (u : StoreUser)
    (he : profile.emails.head? = some e0)
    (hf : store.find? (fun v => v.google_id == profile.id) = some u) :
    runUpsert store profile now createdAt freshId =
      { result := DoneResult.success { record := u, isNewUser := false }
        ops := [Op.fetch profile.id, Op.update [("last_login", JValue.time now)] u.id]
        finalStore := store.map (fun v =>
          if v.id == u.id then { v with last_login := some now } else v) } := by
  have hfetch : honestFetch store profile.id = { data := some u, error := none } := by
    unfold honestFetch; rw [hf]
  simp only [runUpsert, hfetch, verifyCallback, he, afterFetch]
  simp [applyOp, List.foldl, applyUpdate_last_login]

lemma afterFetch_ops (profile : Profile) (o : Oracle) (e0 : EmailEntry) (pv : JValue) :
    ∀ d : Option StoreUser, (afterFetch profile o e0 pv d).ops =
      match d with
      | none => [Op.fetch profile.id,
          Op.insert (insertPayload profile.id e0.value profile.displayName pv)]
      | some u => [Op.fetch profile.id, Op.update [("last_login", JValue.time o.now)] u.id]
  | some u => rfl
  | none => by
    cases hie : (o.insertRes (insertPayload profile.id e0.value profile.displayName pv)).error with
    | some ie => simp [afterFetch, hie]
    | none =>
      cases hdt : (o.insertRes (insertPayload profile.id e0.value profile.displayName pv)).data <;>
        simp [afterFetch, hie, hdt]

lemma verifyCallback_ops_shape (profile : Profile) (o : Oracle) :
    (verifyCallback profile o).ops = [] ∨
    (verifyCallback profile o).ops = [Op.fetch profile.id] ∨
    (∃ e0, profile.emails.head? = some e0 ∧
      (verifyCallback profile o).ops = [Op.fetch profile.id,
        Op.insert (insertPayload profile.id e0.value profile.displayName
          (pictureValOf profile))]) ∨
    (∃ u : StoreUser, (verifyCallback profile o).ops = [Op.fetch profile.id,
        Op.update [("last_login", JValue.time o.now)] u.id]) := by
  cases he : profile.emails.head? with
  | none => left; simp [verifyCallback, he]
  | some e0 =>
    have hshape : ∀ d : Option StoreUser,
        (afterFetch profile o e0 (pictureValOf profile) d).ops = [Op.fetch profile.id,
          Op.insert (insertPayload profile.id e0.value profile.displayName
            (pictureValOf profile))] ∨
        (∃ u : StoreUser, (afterFetch profile o e0 (pictureValOf profile) d).ops =
          [Op.fetch profile.id, Op.update [("last_login", JValue.time o.now)] u.id]) := by
      intro d
      rw [afterFetch_ops]
      cases d with
      | none => left; rfl
      | some u => right; exact ⟨u, rfl⟩
    cases herr : o.fetchRes.error with
    | none =>
      rcases hshape o.fetchRes.data with h | h
      · right; right; left
        exact ⟨e0, rfl, by simp [verifyCallback, he, herr]; exact h⟩
      · right; right; right
        obtain ⟨u, hu⟩ := h
        exact ⟨u, by simp [verifyCallback, he, herr]; exact hu⟩
    | some fe =>
      by_cases hc : fe.code = "PGRST116"
      · rcases hshape o.fetchRes.data with h | h
        · right; right; left
          exact ⟨e0, rfl, by simp [verifyCallback, he, herr, hc]; exact h⟩
        · right; right; right
          obtain ⟨u, hu⟩ := h
          exact ⟨u, by simp [verifyCallback, he, herr, hc]; exact hu⟩
      · right; left; simp [verifyCallback, he, herr, hc]

lemma any_beq_filter_ne {α : Type} (f : α → String) (a : String) (l : List α) :
    (l.filter (fun x => f x != a)).any (fun x => f x == a) = false := by
  rw [List.any_eq_false]
  intro x hx
  rw [List.mem_filter] at hx
  simpa using hx.2

lemma any_filter_le {α : Type} (p q : α → Bool) (l : List α) (h : l.any q = false) :
    (l.filter p).any q = false := by
  rw [List.any_eq_false] at h ⊢
  intro x hx
  exact h x (List.mem_filter.mp hx).1

lemma filter_idem {α : Type} (p : α → Bool) (l : List α) :
    (l.filter p).filter p = l.filter p :=
  List.filter_eq_self.mpr (fun _ ha => (List.mem_filter.mp ha).2)

lemma filter_inner_stable {α : Type} (p q : α → Bool) (l : List α) :
    ((l.filter q).filter p).filter q = (l.filter q).filter p :=
  List.filter_eq_self.mpr (fun _ ha => (List.mem_filter.mp (List.mem_filter.mp ha).1).2)

lemma setup_run_ok (s : Schema)
    (hc1 : (droppedIndexes s).any (fun ix => ix.name == "idx_users_google_id") = false)
    (hc2 : (droppedIndexes s).any (fun ix => ix.name == "idx_users_email") = false)
    (hc3 : (droppedIndexes s).any (fun ix => ix.name == "idx_sessions_user_id") = false) :
    execScript s setupTablesDDL = Except.ok (setupResult s) := by
  have hTu : (droppedTables s).any (fun tb => tb.name == "users") = false :=
    any_beq_filter_ne Table.name "users" _
  have hTs : (droppedTables s).any (fun tb => tb.name == "sessions") = false :=
    any_filter_le _ _ _ (any_beq_filter_ne Table.name "sessions" _)
  simp only [droppedTables, droppedIndexes] at hc1 hc2 hc3 hTu hTs
  have e1 : ("users" == "sessions") = false := rfl
  have e2 : ("idx_users_google_id" == "idx_users_email") = false := rfl
  have e3 : ("idx_users_google_id" == "idx_sessions_user_id") = false := rfl
  have e4 : ("idx_users_email" == "idx_sessions_user_id") = false := rfl
  have e5 : ("users" == "users") = true := rfl
  have e6 : ("sessions" == "sessions") = true := rfl
  simp only [setupTablesDDL, execScript, execDDL, dropTable, hasTable, hasIndex,
    droppedTables, droppedIndexes, setupResult, usersTable, sessionsTable,
    idxUsersGoogleId, idxUsersEmail, idxSessionsUserId,
    List.any_append, List.any_cons, List.any_nil,
    hc1, hc2, hc3, hTu, hTs, e1, e2, e3, e4, e5, e6,
    Bool.or_false, Bool.false_or, Bool.or_true, Bool.true_or,
    if_true, if_false, Bool.false_eq_true, Bool.true_eq_false, reduceIte,
    List.append_assoc, List.cons_append, List.nil_append]

lemma setup_run (s : Schema) :
    execScript s setupTablesDDL =
      if (droppedIndexes s).any (fun ix => ix.name == "idx_users_google_id") then
        Except.error ("relation already exists: " ++ "idx_users_google_id")
      else if (droppedIndexes s).any (fun ix => ix.name == "idx_users_email") then
        Except.error ("relation already exists: " ++ "idx_users_email")
      else if (droppedIndexes s).any (fun ix => ix.name == "idx_sessions_user_id") then
        Except.error ("relation already exists: " ++ "idx_sessions_user_id")
      else Except.ok (setupResult s) := by
  have hTu : (droppedTables s).any (fun tb => tb.name == "users") = false :=
    any_beq_filter_ne Table.name "users" _
  have hTs : (droppedTables s).any (fun tb => tb.name == "sessions") = false :=
    any_filter_le _ _ _ (any_beq_filter_ne Table.name "sessions" _)
  simp only [droppedTables] at hTu hTs
  have e1 : ("users" == "sessions") = false := rfl
  have e2 : ("idx_users_google_id" == "idx_users_email") = false := rfl
  have e3 : ("idx_users_google_id" == "idx_sessions_user_id") = false := rfl
  have e4 : ("idx_users_email" == "idx_sessions_user_id") = false := rfl
  have e5 : ("users" == "users") = true := rfl
  have e6 : ("sessions" == "sessions") = true := rfl
  by_cases hc1 : ((s.indexes.filter (fun ix => ix.table != "sessions")).filter
      (fun ix => ix.table != "users")).any (fun ix => ix.name == "idx_users_google_id") = true
  · simp only [droppedIndexes, hc1, if_true]
    simp only [setupTablesDDL, execScript, execDDL, dropTable, hasTable, hasIndex,
      usersTable, sessionsTable, List.any_append, List.any_cons, List.any_nil,
      hc1, hTu, hTs, e1, e5,
      Bool.or_false, Bool.false_or, Bool.or_true, Bool.true_or,
      Bool.false_eq_true, Bool.true_eq_false, reduceIte]
  · rw [Bool.not_eq_true] at hc1
    by_cases hc2 : ((s.indexes.filter (fun ix => ix.table != "sessions")).filter
        (fun ix => ix.table != "users")).any (fun ix => ix.name == "idx_users_email") = true
    · simp only [droppedIndexes, hc1, hc2, if_true, Bool.false_eq_true, reduceIte]
      simp only [setupTablesDDL, execScript, execDDL, dropTable, hasTable, hasIndex,
        usersTable, sessionsTable, List.any_append, List.any_cons, List.any_nil,
        hc1, hc2, hTu, hTs, e1, e2, e5,
        Bool.or_false, Bool.false_or, Bool.or_true, Bool.true_or,
        Bool.false_eq_true, Bool.true_eq_false, reduceIte]
    · rw [Bool.not_eq_true] at hc2
      by_cases hc3 : ((s.indexes.filter (fun ix => ix.table != "sessions")).filter
          (fun ix => ix.table != "users")).any (fun ix => ix.name == "idx_sessions_user_id") = true
      · simp only [droppedIndexes, hc1, hc2, hc3, if_true, Bool.false_eq_true, reduceIte]
        simp only [setupTablesDDL, execScript, execDDL, dropTable, hasTable, hasIndex,
          usersTable, sessionsTable, List.any_append, List.any_cons, List.any_nil,
          hc1, hc2, hc3, hTu, hTs, e1, e2, e3, e4, e5, e6,
          Bool.or_false, Bool.false_or, Bool.or_true, Bool.true_or,
          Bool.false_eq_true, Bool.true_eq_false, reduceIte]
      · rw [Bool.not_eq_true] at hc3
        rw [setup_run_ok s (by simpa [droppedIndexes] using hc1)
          (by simpa [droppedIndexes] using hc2) (by simpa [droppedIndexes] using hc3)]
        simp only [droppedIndexes, hc1, hc2, hc3, Bool.false_eq_true, reduceIte]

lemma droppedTables_setupResult (s : Schema) :
    droppedTables (setupResult s) = droppedTables s := by
  simp only [droppedTables, setupResult]
  rw [List.filter_append]
  rw [show ([usersTable, sessionsTable].filter (fun tb => tb.name != "sessions")) =
    [usersTable] from rfl]
  rw [filter_inner_stable]
  rw [List.filter_append]
  rw [show ([usersTable].filter (fun tb => tb.name != "users")) = ([] : List Table) from rfl]
  rw [filter_idem, List.append_nil]

lemma droppedIndexes_setupResult (s : Schema) :
    droppedIndexes (setupResult s) = droppedIndexes s := by
  simp only [droppedIndexes, setupResult]
  rw [List.filter_append]
  rw [show ([idxUsersGoogleId, idxUsersEmail, idxSessionsUserId].filter
    (fun ix => ix.table != "sessions")) = [idxUsersGoogleId, idxUsersEmail] from rfl]
  rw [filter_inner_stable]
  rw [List.filter_append]
  rw [show ([idxUsersGoogleId, idxUsersEmail].filter (fun ix => ix.table != "users")) =
    ([] : List DbIndex) from rfl]
  rw [filter_idem, List.append_nil]

lemma setupResult_idem (s : Schema) : setupResult (setupResult s) = setupResult s := by
  show ({ tables := droppedTables (setupResult s) ++ [usersTable, sessionsTable]
          indexes := droppedIndexes (setupResult s) ++
            [idxUsersGoogleId, idxUsersEmail, idxSessionsUserId] } : Schema) = setupResult s
  rw [droppedTables_setupResult, droppedIndexes_setupResult]
  rfl

lemma setup_rerun (s s1 : Schema) (h : execScript s setupTablesDDL = Except.ok s1) :
    execScript s1 setupTablesDDL = Except.ok s1 := by
  rw [setup_run] at h
  split_ifs at h with d1 d2 d3
  rw [Except.ok.injEq] at h
  subst h
  rw [setup_run, droppedIndexes_setupResult, setupResult_idem]
  rw [Bool.not_eq_true] at d1 d2 d3
  simp only [d1, d2, d3, Bool.false_eq_true, reduceIte]

lemma createTables_run_and_rerun (s : Schema) :
    ∃ s1, execScript s createTablesDDL = Except.ok s1 ∧
      execScript s1 createTablesDDL = Except.ok s1 := by
  by_cases h1 : ∃ x ∈ s.tables, x.name = "users"
  · by_cases h2 : ∃ x ∈ s.tables, x.name = "sessions"
    · exact ⟨s, by simp [execScript, execDDL, createTablesDDL, hasTable, h1, h2],
        by simp [execScript, execDDL, createTablesDDL, hasTable, h1, h2]⟩
    · refine ⟨{ s with tables := s.tables ++ [sessionsTable] }, ?_, ?_⟩
      · simp [execScript, execDDL, createTablesDDL, hasTable, h1, h2, sessionsTable]
      · simp [execScript, execDDL, createTablesDDL, hasTable, h1, h2, sessionsTable]
  · by_cases h2 : ∃ x ∈ s.tables, x.name = "sessions"
    · refine ⟨{ s with tables := s.tables ++ [usersTable] }, ?_, ?_⟩
      · simp [execScript, execDDL, createTablesDDL, hasTable, h1, h2, usersTable]
      · simp [execScript, execDDL, createTablesDDL, hasTable, h1, h2, usersTable]
    · refine ⟨{ s with tables := s.tables ++ [usersTable] ++ [sessionsTable] }, ?_, ?_⟩
      · simp [execScript, execDDL, createTablesDDL, hasTable, h1, h2, usersTable, sessionsTable]
      · simp [execScript, execDDL, createTablesDDL, hasTable, h1, h2, usersTable, sessionsTable]

/-- Claim C1: for an external identity assertion whose subject id has no existing User row, the Identity Upsert issues exactly one insert, the resulting store is the old store plus exactly one new row carrying the subject id, email, display name and avatar URL (with the schema defaults active and no last login), and the caller is told is_new = true. -/
theorem identity_upsert_new_user (store : List StoreUser) (profile : Profile)
    (now createdAt : Int) (freshId : Nat) (e0 : EmailEntry)
    (he : profile.emails.head? = some e0)
    (hn : store.find? (fun u => u.google_id == profile.id) = none) :
    ∃ nu : StoreUser,
      (runUpsert store profile now createdAt freshId).result =
        DoneResult.success { record := nu, isNewUser := true } ∧
      nu.google_id = profile.id ∧
      nu.email = e0.value ∧
      nu.name = profile.displayName ∧
      nu.picture = profile.photos.head?.map PhotoEntry.value ∧
      nu.is_active = true ∧
      nu.last_login = none ∧
      (runUpsert store profile now createdAt freshId).finalStore = store ++ [nu] := by
  refine ⟨mkNewUser (insertPayload profile.id e0.value profile.displayName
    (pictureValOf profile)) freshId createdAt, ?_, ?_, ?_, ?_, ?_, ?_, ?_, ?_⟩
  · rw [runUpsert_new store profile now createdAt freshId e0 he hn]
  · rfl
  · rfl
  · rfl
  · cases hp : profile.photos.head? <;>
      simp [mkNewUser, lookupStr, insertPayload, pictureValOf, hp, List.lookup]
  · rfl
  · rfl
  · rw [runUpsert_new store profile now createdAt freshId e0 he hn]

/-- Witness for C1 at a concrete first login: subject id g-1 with a known email, empty store. -/
theorem identity_upsert_new_user_witness :
    ∃ nu : StoreUser,
      (runUpsert [] sampleNewProfile 5 5 1).result =
        DoneResult.success { record := nu, isNewUser := true } ∧
      nu.google_id = sampleNewProfile.id ∧
      nu.email = ({ value := "a@x.com" } : EmailEntry).value ∧
      nu.name = sampleNewProfile.displayName ∧
      nu.picture = sampleNewProfile.photos.head?.map PhotoEntry.value ∧
      nu.is_active = true ∧
      nu.last_login = none ∧
      (runUpsert [] sampleNewProfile 5 5 1).finalStore = [] ++ [nu] :=
  identity_upsert_new_user [] sampleNewProfile 5 5 1 { value := "a@x.com" } rfl rfl

/-- Claim C2: for a subject id that already has a User row, the Identity Upsert inserts nothing, issues exactly one update whose payload sets only last_login, keyed by the id of the found row; every other column of every row is unchanged, and the caller is told is_new = false. -/
theorem identity_upsert_existing_user (store : List StoreUser) (profile : Profile)
    (now createdAt : Int) (freshId : Nat) (e0 : EmailEntry) (u : StoreUser)
    (he : profile.emails.head? = some e0)
    (hf : store.find? (fun v => v.google_id == profile.id) = some u) :
    (runUpsert store profile now createdAt freshId).result =
      DoneResult.success { record := u, isNewUser := false } ∧
    (runUpsert store profile now createdAt freshId).ops =
      [Op.fetch profile.id, Op.update [("last_login", JValue.time now)] u.id] ∧
    (runUpsert store profile now createdAt freshId).finalStore.length = store.length ∧
    ∀ (k : Nat) (hk : k < store.length)
      (hk2 : k < (runUpsert store profile now createdAt freshId).finalStore.length),
      (runUpsert store profile now createdAt freshId).finalStore[k].google_id =
        store[k].google_id ∧
      (runUpsert store profile now createdAt freshId).finalStore[k].email = store[k].email ∧
      (runUpsert store profile now createdAt freshId).finalStore[k].name = store[k].name ∧
      (runUpsert store profile now createdAt freshId).finalStore[k].picture =
        store[k].picture ∧
      (runUpsert store profile now createdAt freshId).finalStore[k].id = store[k].id ∧
      (runUpsert store profile now createdAt freshId).finalStore[k].is_active =
        store[k].is_active ∧
      (runUpsert store profile now createdAt freshId).finalStore[k].created_at =
        store[k].created_at ∧
      (store[k].id = u.id →
        (runUpsert store profile now createdAt freshId).finalStore[k].last_login = some now) ∧
      (store[k].id ≠ u.id →
        (runUpsert store profile now createdAt freshId).finalStore[k].last_login =
          store[k].last_login) := by
  rw [runUpsert_existing store profile now createdAt freshId e0 u he hf]
  refine ⟨rfl, rfl, by simp, ?_⟩
  intro k hk hk2
  simp only [List.getElem_map]
  by_cases hid : store[k].id = u.id <;> simp [hid]

/-- Witness for C2 at a concrete repeat login against a one-row store. -/
theorem identity_upsert_existing_user_witness :
    (runUpsert [sampleExistingUser] sampleNewProfile 999 5 1).result =
      DoneResult.success { record := sampleExistingUser, isNewUser := false } ∧
    (runUpsert [sampleExistingUser] sampleNewProfile 999 5 1).finalStore.length =
      [sampleExistingUser].length :=
  ⟨(identity_upsert_existing_user [sampleExistingUser] sampleNewProfile 999 5 1
      { value := "a@x.com" } sampleExistingUser rfl rfl).1,
   (identity_upsert_existing_user [sampleExistingUser] sampleNewProfile 999 5 1
      { value := "a@x.com" } sampleExistingUser rfl rfl).2.2.1⟩

/-- Counterexample to C3: a store communication error in the last_login update step does not fail the authentication — the server discards the result of the update call, so done(null, user) is still reached and a principal is established. -/
theorem update_error_still_authenticates :
    (verifyCallback sampleNewProfile
      { fetchRes := { data := some sampleExistingUser, error := none }
        insertRes := fun _ => { data := none, error := none }
        updateError := some { code := "08006" }
        now := 999 }).result =
      DoneResult.success { record := sampleExistingUser, isNewUser := false } := rfl

/-- Amended C3: store errors in the initial query (other than the no-row code PGRST116) and in the insert abort the authentication with done(error, null) and no principal; the outcome is insensitive to an error of the last_login update, which the code never reads. -/
theorem upsert_error_propagation (profile : Profile) (o : Oracle) (e0 : EmailEntry)
    (he : profile.emails.head? = some e0) :
    (∀ fe, o.fetchRes.error = some fe → fe.code ≠ "PGRST116" →
       (verifyCallback profile o).result = DoneResult.failure (JsError.store fe)) ∧
    ((∀ fe, o.fetchRes.error = some fe → fe.code = "PGRST116") →
       o.fetchRes.data = none →
       ∀ ie, (o.insertRes (insertPayload profile.id e0.value profile.displayName
         (pictureValOf profile))).error = some ie →
       (verifyCallback profile o).result = DoneResult.failure (JsError.store ie)) ∧
    (∀ x, verifyCallback profile { o with updateError := x } = verifyCallback profile o) := by
  refine ⟨?_, ?_, fun x => rfl⟩
  · intro fe hfe hcode
    simp [verifyCallback, he, hfe, hcode]
  · intro hall hdata ie hins
    cases h : o.fetchRes.error with
    | none => simp [verifyCallback, he, h, hdata, afterFetch, hins]
    | some fe =>
      have hc := hall fe h
      simp [verifyCallback, he, h, hc, hdata, afterFetch, hins]

/-- Witness for amended C3: a concrete query error with code 500 fails the authentication. -/
theorem upsert_error_propagation_witness :
    (verifyCallback sampleNewProfile fetchFailOracle).result =
      DoneResult.failure (JsError.store { code := "500" }) :=
  (upsert_error_propagation sampleNewProfile fetchFailOracle { value := "a@x.com" } rfl).1
    { code := "500" } rfl (by decide)

/-- Counterexample to C4: setup-supabase-tables.js issues unguarded statements — its CREATE TABLE users and CREATE INDEX idx_users_google_id carry no if-not-exists guard; only its DROP statements are guarded. -/
theorem setup_tables_unguarded_statement :
    DDL.createTable "users" usersCols ∈ setupTablesDDL ∧
    DDL.guarded (DDL.createTable "users" usersCols) = false ∧
    DDL.createIndex "idx_users_google_id" "users" ∈ setupTablesDDL ∧
    DDL.guarded (DDL.createIndex "idx_users_google_id" "users") = false ∧
    DDL.dropTableIfExists "users" ∈ setupTablesDDL := by
  refine ⟨by simp [setupTablesDDL], rfl, by simp [setupTablesDDL], rfl, by simp [setupTablesDDL]⟩

/-- Amended C4: every statement of create-tables.js is guarded and that script succeeds and is a no-op on re-run from any schema state; re-running setup-supabase-tables.js after a successful run also succeeds and leaves the schema unchanged, but by dropping and recreating the tables rather than by guards. -/
theorem schema_provisioner_rerun :
    (∀ d ∈ createTablesDDL, d.guarded = true) ∧
    (∀ s : Schema, ∃ s1, execScript s createTablesDDL = Except.ok s1 ∧
        execScript s1 createTablesDDL = Except.ok s1) ∧
    (∀ s s1 : Schema, execScript s setupTablesDDL = Except.ok s1 →
        execScript s1 setupTablesDDL = Except.ok s1) :=
  ⟨by decide, createTables_run_and_rerun, setup_rerun⟩

/-- Witness for amended C4: running the setup batch twice from the empty schema succeeds both times with the same resulting schema. -/
theorem schema_provisioner_rerun_witness :
    execScript { tables := [], indexes := [] } setupTablesDDL =
      Except.ok { tables := [usersTable, sessionsTable]
                  indexes := [idxUsersGoogleId, idxUsersEmail, idxSessionsUserId] } ∧
    execScript { tables := [usersTable, sessionsTable]
                 indexes := [idxUsersGoogleId, idxUsersEmail, idxSessionsUserId] }
        setupTablesDDL =
      Except.ok { tables := [usersTable, sessionsTable]
                  indexes := [idxUsersGoogleId, idxUsersEmail, idxSessionsUserId] } ∧
    (DDL.createTableIfNotExists "users" usersCols).guarded = true :=
  ⟨rfl,
   schema_provisioner_rerun.2.2 { tables := [], indexes := [] }
     { tables := [usersTable, sessionsTable]
       indexes := [idxUsersGoogleId, idxUsersEmail, idxSessionsUserId] } rfl,
   schema_provisioner_rerun.1 (DDL.createTableIfNotExists "users" usersCols) (by decide)⟩

/-- Claim C5: the newly-registered flag is attached only to the in-memory session value; no payload of any store operation issued by the verify callback contains an isNewUser field — the insert payload holds exactly google_id, email, name, picture and the update payload exactly last_login. -/
theorem is_new_flag_never_persisted (profile : Profile) (o : Oracle) :
    (∀ op ∈ (verifyCallback profile o).ops,
      (payloadOfOp op).lookup "isNewUser" = none) ∧
    (∀ p, Op.insert p ∈ (verifyCallback profile o).ops →
      p.map Prod.fst = ["google_id", "email", "name", "picture"]) ∧
    (∀ p i, Op.update p i ∈ (verifyCallback profile o).ops →
      p.map Prod.fst = ["last_login"]) := by
  rcases verifyCallback_ops_shape profile o with h | h | ⟨e0, _, h⟩ | ⟨u, h⟩ <;> rw [h]
  · exact ⟨by simp, by simp, by simp⟩
  · refine ⟨?_, by simp, by simp⟩
    intro op hop
    simp at hop
    subst hop
    rfl
  · refine ⟨?_, ?_, by simp⟩
    · intro op hop
      simp at hop
      rcases hop with hop | hop <;> subst hop <;> rfl
    · intro p hp
      simp at hp
      subst hp
      rfl
  · refine ⟨?_, by simp, ?_⟩
    · intro op hop
      simp at hop
      rcases hop with hop | hop <;> subst hop <;> rfl
    · intro p i hp
      simp at hp
      obtain ⟨hp, _⟩ := hp
      subst hp
      rfl

/-- Witness for C5 on the concrete insert payload of a first login. -/
theorem is_new_flag_never_persisted_witness :
    (payloadOfOp (Op.insert (insertPayload "g-1" "a@x.com" "Alice"
      JValue.undef))).lookup "isNewUser" = none ∧
    (insertPayload "g-1" "a@x.com" "Alice" JValue.undef).map Prod.fst =
      ["google_id", "email", "name", "picture"] :=
  ⟨(is_new_flag_never_persisted sampleNewProfile insertingOracle).1
      (Op.insert (insertPayload "g-1" "a@x.com" "Alice" JValue.undef)) (by decide),
   (is_new_flag_never_persisted sampleNewProfile insertingOracle).2.1
      (insertPayload "g-1" "a@x.com" "Alice" JValue.undef) (by decide)⟩

/-- Claim C6: a failing initial query with an error code other than PGRST116 makes the verify callback return the failure after issuing only the single fetch (no retry, no insert, no update); the PGRST116 no-row outcome instead proceeds to the insert branch. -/
theorem fetch_error_branching (profile : Profile) (o : Oracle) (e0 : EmailEntry)
    (he : profile.emails.head? = some e0) :
    (∀ fe, o.fetchRes.error = some fe → fe.code ≠ "PGRST116" →
       verifyCallback profile o =
         { result := DoneResult.failure (JsError.store fe)
           ops := [Op.fetch profile.id] }) ∧
    (o.fetchRes.error = some { code := "PGRST116" } → o.fetchRes.data = none →
       (verifyCallback profile o).ops =
         [Op.fetch profile.id,
          Op.insert (insertPayload profile.id e0.value profile.displayName
            (pictureValOf profile))]) := by
  constructor
  · intro fe hfe hcode
    simp [verifyCallback, he, hfe, hcode]
  · intro h hdata
    cases hie : (o.insertRes (insertPayload profile.id e0.value profile.displayName
        (pictureValOf profile))).error with
    | none =>
      cases hdt : (o.insertRes (insertPayload profile.id e0.value profile.displayName
          (pictureValOf profile))).data <;>
        simp [verifyCallback, he, h, hdata, afterFetch, hie, hdt]
    | some ie => simp [verifyCallback, he, h, hdata, afterFetch, hie]

/-- Witness for C6: a concrete non-PGRST116 query error yields the failure with a single-fetch trace. -/
theorem fetch_error_branching_witness :
    verifyCallback sampleNewProfile fetchFailOracle =
      { result := DoneResult.failure (JsError.store { code := "500" })
        ops := [Op.fetch sampleNewProfile.id] } :=
  (fetch_error_branching sampleNewProfile fetchFailOracle { value := "a@x.com" } rfl).1
    { code := "500" } rfl (by decide)

/-- Claim C7: the admin gate admits a request iff it is authenticated and the principal email equals the configured admin email by exact case-sensitive string comparison; every other request gets a plain 403 response, never a redirect — including an authenticated request whose email differs only in case. -/
theorem admin_gate_exact_email (adminEmail : String) (req : ReqCtx) :
    (isAdmin adminEmail req = MwResult.next ↔
      req.authenticated = true ∧ req.userEmail = adminEmail) ∧
    (isAdmin adminEmail req = MwResult.next ∨
      isAdmin adminEmail req = MwResult.status 403 "Access denied. Admin only.") ∧
    isAdmin "admin@x.com" { authenticated := true, userEmail := "Admin@x.com" } =
      MwResult.status 403 "Access denied. Admin only." := by
  refine ⟨?_, ?_, by decide⟩
  · constructor
    · intro hnext
      by_cases h : (req.authenticated && (req.userEmail == adminEmail)) = true
      · simpa [Bool.and_eq_true, beq_iff_eq] using h
      · simp [isAdmin, h] at hnext
    · rintro ⟨h1, h2⟩
      simp [isAdmin, h1, h2]
  · by_cases h : (req.authenticated && (req.userEmail == adminEmail)) = true
    · left; simp [isAdmin, h]
    · right; simp [isAdmin, h]

/-- Claim C8: on the OAuth callback route a successful authentication redirects to /dashboard?welcome=true exactly when the upsert created the user in this call, to /dashboard otherwise, and a failed authentication redirects to /. -/
theorem oauth_callback_redirects (store : List StoreUser) (profile : Profile)
    (now createdAt : Int) (freshId : Nat) (e0 : EmailEntry)
    (he : profile.emails.head? = some e0) :
    (store.find? (fun v => v.google_id == profile.id) = none →
      authCallbackRedirect (runUpsert store profile now createdAt freshId).result =
        "/dashboard?welcome=true") ∧
    (∀ u, store.find? (fun v => v.google_id == profile.id) = some u →
      authCallbackRedirect (runUpsert store profile now createdAt freshId).result =
        "/dashboard") ∧
    (∀ e, authCallbackRedirect (DoneResult.failure e) = "/") := by
  refine ⟨?_, ?_, fun e => rfl⟩
  · intro hn
    rw [runUpsert_new store profile now createdAt freshId e0 he hn]
    rfl
  · intro u hf
    rw [runUpsert_existing store profile now createdAt freshId e0 u he hf]
    rfl

/-- Witness for C8: concrete first and repeat logins produce the two redirect targets. -/
theorem oauth_callback_redirects_witness :
    authCallbackRedirect (runUpsert [] sampleNewProfile 5 5 1).result =
      "/dashboard?welcome=true" ∧
    authCallbackRedirect (runUpsert [sampleExistingUser] sampleNewProfile 999 5 1).result =
      "/dashboard" :=
  ⟨(oauth_callback_redirects [] sampleNewProfile 5 5 1 { value := "a@x.com" } rfl).1 rfl,
   (oauth_callback_redirects [sampleExistingUser] sampleNewProfile 999 5 1
      { value := "a@x.com" } rfl).2.1 sampleExistingUser rfl⟩

/-- Claim C9: the admin statistics count all users, the active users, the users created on or after local midnight, and the users created within the seven days before local midnight; in the spec scenario (creations at T minus 10 days, T minus 2 days, T minus 1 hour) they give newToday 1, newThisWeek 2, totalUsers 3. -/
theorem admin_stats_computation :
    (∀ (users : List StoreUser) (today : Int),
      (computeStats users today).totalUsers = users.length ∧
      (computeStats users today).activeUsers = users.countP (fun u => u.is_active) ∧
      (computeStats users today).newToday =
        users.countP (fun u => decide (today ≤ u.created_at)) ∧
      (computeStats users today).newThisWeek =
        users.countP (fun u => decide (today - 7 * millisPerDay ≤ u.created_at))) ∧
    (∀ (T today : Int) (u1 u2 u3 : StoreUser),
      u1.created_at = T - 10 * millisPerDay →
      u2.created_at = T - 2 * millisPerDay →
      u3.created_at = T - 3600000 →
      today + 3600000 ≤ T → T < today + millisPerDay →
      (computeStats [u1, u2, u3] today).newToday = 1 ∧
      (computeStats [u1, u2, u3] today).newThisWeek = 2 ∧
      (computeStats [u1, u2, u3] today).totalUsers = 3) := by
  constructor
  · intro users today
    refine ⟨rfl, ?_, ?_, ?_⟩ <;> simp [computeStats, List.countP_eq_length_filter]
  · intro T today u1 u2 u3 h1 h2 h3 hlo hhi
    simp only [millisPerDay] at h1 h2 h3 hlo hhi
    have a1 : decide (today ≤ u1.created_at) = false := by
      rw [h1]; simp only [decide_eq_false_iff_not]; omega
    have a2 : decide (today ≤ u2.created_at) = false := by
      rw [h2]; simp only [decide_eq_false_iff_not]; omega
    have a3 : decide (today ≤ u3.created_at) = true := by
      rw [h3]; simp only [decide_eq_true_eq]; omega
    have b1 : decide (today - 7 * millisPerDay ≤ u1.created_at) = false := by
      rw [h1]; simp only [millisPerDay, decide_eq_false_iff_not]; omega
    have b2 : decide (today - 7 * millisPerDay ≤ u2.created_at) = true := by
      rw [h2]; simp only [millisPerDay, decide_eq_true_eq]; omega
    have b3 : decide (today - 7 * millisPerDay ≤ u3.created_at) = true := by
      rw [h3]; simp only [millisPerDay, decide_eq_true_eq]; omega
    refine ⟨?_, ?_, rfl⟩ <;>
      simp only [computeStats, List.filter_cons, List.filter_nil, a1, a2, a3, b1, b2, b3,
        if_true, if_false, Bool.false_eq_true, Bool.true_eq_false, reduceIte,
        List.length_cons, List.length_nil]

/-- Witness for C9 at concrete instants two hours past a midnight. -/
theorem admin_stats_computation_witness :
    (computeStats [statUser (sampleNow - 10 * millisPerDay),
      statUser (sampleNow - 2 * millisPerDay),
      statUser (sampleNow - 3600000)] sampleMidnight).newToday = 1 ∧
    (computeStats [statUser (sampleNow - 10 * millisPerDay),
      statUser (sampleNow - 2 * millisPerDay),
      statUser (sampleNow - 3600000)] sampleMidnight).newThisWeek = 2 ∧
    (computeStats [statUser (sampleNow - 10 * millisPerDay),
      statUser (sampleNow - 2 * millisPerDay),
      statUser (sampleNow - 3600000)] sampleMidnight).totalUsers = 3 :=
  admin_stats_computation.2 sampleNow sampleMidnight
    (statUser (sampleNow - 10 * millisPerDay))
    (statUser (sampleNow - 2 * millisPerDay))
    (statUser (sampleNow - 3600000)) rfl rfl rfl
    (by norm_num [sampleNow, sampleMidnight, millisPerDay])
    (by norm_num [sampleNow, sampleMidnight, millisPerDay])

/-- Claim C10: the verify callback always reaches done with either a user or an error; an empty profile.emails list produces a caught TypeError failure with no store call issued, while an empty profile.photos list merely leaves the picture column null on the inserted row of an otherwise successful first login. -/
theorem verify_callback_totality (profile : Profile) (o : Oracle) :
    ((∃ u, (verifyCallback profile o).result = DoneResult.success u) ∨
      (∃ e, (verifyCallback profile o).result = DoneResult.failure e)) ∧
    (profile.emails = [] → verifyCallback profile o =
      { result := DoneResult.failure JsError.typeError, ops := [] }) ∧
    (∀ (store : List StoreUser) (now createdAt : Int) (freshId : Nat) (e0 : EmailEntry),
      profile.emails.head? = some e0 → profile.photos = [] →
      store.find? (fun u => u.google_id == profile.id) = none →
      ∃ nu, (runUpsert store profile now createdAt freshId).result =
          DoneResult.success { record := nu, isNewUser := true } ∧ nu.picture = none) := by
  refine ⟨?_, ?_, ?_⟩
  · cases h : (verifyCallback profile o).result with
    | success u => exact Or.inl ⟨u, rfl⟩
    | failure e => exact Or.inr ⟨e, rfl⟩
  · intro h
    simp [verifyCallback, h]
  · intro store now createdAt freshId e0 he hp hn
    refine ⟨mkNewUser (insertPayload profile.id e0.value profile.displayName
      (pictureValOf profile)) freshId createdAt, ?_, ?_⟩
    · rw [runUpsert_new store profile now createdAt freshId e0 he hn]
    · simp [mkNewUser, lookupStr, insertPayload, pictureValOf, hp, List.lookup]

/-- Witness for C10: the empty-emails profile fails cleanly and an empty-photos first login succeeds with no picture. -/
theorem verify_callback_totality_witness :
    verifyCallback emptyEmailProfile fetchFailOracle =
      { result := DoneResult.failure JsError.typeError, ops := [] } ∧
    ∃ nu, (runUpsert [] sampleNewProfile 5 5 1).result =
        DoneResult.success { record := nu, isNewUser := true } ∧ nu.picture = none :=
  ⟨(verify_callback_totality emptyEmailProfile fetchFailOracle).2.1 rfl,
   (verify_callback_totality sampleNewProfile fetchFailOracle).2.2 [] 5 5 1
      { value := "a@x.com" } rfl rfl rfl⟩
